import Mathlib

/-!
# Verification of the videodb-capture-quickstart orchestration logic

This file gives a shallow embedding, in Lean, of the webhook / listener /
cleanup orchestration code of the repository:

* `src/apps/quickstart/python-quickstart/backend.py` (the Flask quickstart
  backend: `start_ws_listener`, `webhook`),
* `src/examples/openclaw-monitoring/backend.py` (the monitoring variant of
  the same backend),
* `src/examples/async-recorder/server/app/api/routes.py` (the FastAPI
  recorder backend: `handle_webhook`),
* `src/apps/quickstart/python-quickstart/client.py` (the capture client's
  cleanup sequence in `run_capture`),

together with theorems settling the spec's testable properties against the
embedded code.  Python dictionaries with optional keys are modelled with
`Option` fields; Python truthiness of strings (both `None` and `""` are
falsy) is modelled explicitly; side effects (thread spawns, remote SDK
calls, prints of AI results, SQL row writes) are reified as values returned
by the embedded functions.
-/

namespace CaptureQuickstart

/-! ## WebSocket messages and the listener dispatch

Inbound WebSocket messages have the shape
`{channel: string, data: {text?, is_final?, label?, confidence?, ...}}`.
`msg.get("channel")` is `none` when the key is absent, and the `data`
fields model `data.get("text", "")` / `data.get("is_final", False)` /
`data.get("label", "")` / `data.get("confidence", "")` accesses with their
Python defaults applied at access time. -/

/-- An inbound WebSocket message, as consumed by the listener loops.
`channel` is `msg.get("channel")`; the remaining fields are the keys of
`msg.get("data", {})` that the listeners access. -/
structure WsMsg where
  channel : Option String
  text : Option String
  is_final : Option Bool
  label : Option String
  confidence : Option String
deriving Repr, DecidableEq

/-- `data.get("text", "")`. -/
def WsMsg.textD (m : WsMsg) : String := m.text.getD ""

/-- `data.get("is_final", False)`. -/
def WsMsg.isFinalD (m : WsMsg) : Bool := m.is_final.getD false

/-- `data.get("label", "")`. -/
def WsMsg.labelD (m : WsMsg) : String := m.label.getD ""

/-- `data.get("confidence", "")`. -/
def WsMsg.confidenceD (m : WsMsg) : String := m.confidence.getD ""

/-- Python truthiness of a string after `.strip()` (`if text.strip():`):
stripping leading and trailing whitespace leaves a non-empty string iff
some character is not whitespace. -/
def stripTruthy (s : String) : Bool := s.data.any (fun c => !c.isWhitespace)

/-- An AI result surfaced (printed) to the console by a listener, tagged by
which branch of the channel dispatch produced it. -/
inductive Surfaced where
  | transcript (text : String)
  | audioIndex (text : String)
  | visualIndex (text : String)
  | alert (label : String) (confidence : String) (text : String)
deriving Repr, DecidableEq

/-- Per-message dispatch of the quickstart backend's listener
(`start_ws_listener` in `src/apps/quickstart/python-quickstart/backend.py`,
body of the `async for msg in ws.receive()` loop): `transcript`,
`audio_index` and `scene_index` / `visual_index` messages are printed when
their stripped text is non-empty; every other channel is ignored.  Note the
transcript branch prints the text whenever `text.strip()` is truthy —
it does not consult `is_final`. -/
def quickstartHandleMsg (m : WsMsg) : Option Surfaced :=
  if m.channel = some "transcript" then
    if stripTruthy m.textD then some (Surfaced.transcript m.textD) else none
  else if m.channel = some "audio_index" then
    if stripTruthy m.textD then some (Surfaced.audioIndex m.textD) else none
  else if m.channel = some "scene_index" ∨ m.channel = some "visual_index" then
    if stripTruthy m.textD then some (Surfaced.visualIndex m.textD) else none
  else
    none

/-- Per-message dispatch of the openclaw-monitoring backend's listener
(`start_ws_listener` in `src/examples/openclaw-monitoring/backend.py`):
`capture_session` messages are skipped, transcript messages are skipped
unless `data.get("is_final", False)` holds, `audio_index` and
`scene_index` / `visual_index` messages are printed when non-empty, and
`alert` messages are always printed (label, confidence, optional text). -/
def openclawHandleMsg (m : WsMsg) : Option Surfaced :=
  if m.channel = some "capture_session" then
    none
  else if m.channel = some "transcript" then
    if ¬ m.isFinalD then none
    else if stripTruthy m.textD then some (Surfaced.transcript m.textD) else none
  else if m.channel = some "audio_index" then
    if stripTruthy m.textD then some (Surfaced.audioIndex m.textD) else none
  else if m.channel = some "scene_index" ∨ m.channel = some "visual_index" then
    if stripTruthy m.textD then some (Surfaced.visualIndex m.textD) else none
  else if m.channel = some "alert" then
    some (Surfaced.alert m.labelD m.confidenceD m.textD)
  else
    none

/-! ## One listener run

`start_ws_listener(ws_id_queue, name)` starts a daemon thread running one
`listen()` coroutine: it connects a WebSocket, puts the connection id onto
`ws_id_queue` once, then consumes messages, dispatching each through the
per-message handler above.  Any exception (connection failure, or a receive
error after connecting) is caught at the bottom of `listen()`: the error is
printed and the thread exits — nothing further is put on the queue. -/

/-- The outcome of the `listen()` coroutine's interaction with the remote
platform: either `ws_wrapper.connect()` raises, or it yields a connection
id and the receive loop then sees a (possibly error-terminated) sequence of
messages. -/
inductive WsOutcome where
  | connectFailed
  | connected (wsId : String) (msgs : List WsMsg) (receiveError : Bool)
deriving Repr, DecidableEq

/-- The values `listen()` puts on the handoff queue `ws_id_queue`: nothing
on connection failure, the single connection id otherwise (a receive error
after connecting happens after the put and cannot add or remove puts). -/
def listenerQueuePuts : WsOutcome → List String
  | WsOutcome.connectFailed => []
  | WsOutcome.connected wsId _ _ => [wsId]

/-- The AI results one `listen()` run surfaces, given the per-message
dispatch of a backend variant: nothing on connection failure, otherwise
every consumed message's dispatch result (a receive error stops the loop,
so only the messages delivered before it appear in `msgs`). -/
def listenerSurfaced (handle : WsMsg → Option Surfaced) : WsOutcome → List Surfaced
  | WsOutcome.connectFailed => []
  | WsOutcome.connected _ msgs _ => msgs.filterMap handle

/-! ## The quickstart webhook handler

`webhook()` in `src/apps/quickstart/python-quickstart/backend.py`.  Remote
interactions of the `capture_session.active` path are reified as a list of
`Effect`s, in program order.  The environment the handler runs against (the
session's streams per category, and for each spawned listener whether a
connection id reaches the handoff queue within the bounded wait) is passed
in as an `ActiveEnv`. -/

/-- One observable side effect of the `capture_session.active` path. -/
inductive Effect where
  | spawnListener (name : String)
  | startTranscript (streamId : String) (wsId : String)
  | indexAudio (streamId : String) (wsId : String)
  | indexVisuals (streamId : String) (wsId : String)
deriving Repr, DecidableEq

/-- Environment of one `capture_session.active` delivery: the stream ids
`session.get_rtstream` returns per category, and `connect name` — the
connection id that the listener spawned under `name` puts on its handoff
queue in time, or `none` when `q.get(timeout=10)` raises `queue.Empty`
(connection failure or a connect slower than the bounded wait). -/
structure ActiveEnv where
  mics : List String
  displays : List String
  systemAudios : List String
  connect : String → Option String

/-- The bounded wait, in seconds, of `q.get(timeout=10)` in the webhook
handler. -/
def wsQueueTimeoutSeconds : Nat := 10

/-- One audio-category block of the `capture_session.active` path (the
`if system_audios:` and `if mics:` blocks): on a non-empty category, spawn
a listener for the first stream, wait on the queue, then `start_transcript`
and `index_audio` on it.  Returns the effects issued and whether the block
completed (`false` when the queue wait raised, aborting the handler's
`try`). -/
def audioBlock (watcherName : String) (streams : List String)
    (env : ActiveEnv) : List Effect × Bool :=
  match streams with
  | [] => ([], true)
  | s :: _ =>
    match env.connect watcherName with
    | none => ([Effect.spawnListener watcherName], false)
    | some wsId =>
      ([Effect.spawnListener watcherName,
        Effect.startTranscript s wsId,
        Effect.indexAudio s wsId], true)

/-- The display block of the `capture_session.active` path (`if displays:`):
spawn the `VisualWatcher` listener, wait on the queue, then `index_visuals`
on the first display stream. -/
def visualBlock (streams : List String) (env : ActiveEnv) :
    List Effect × Bool :=
  match streams with
  | [] => ([], true)
  | s :: _ =>
    match env.connect "VisualWatcher" with
    | none => ([Effect.spawnListener "VisualWatcher"], false)
    | some wsId =>
      ([Effect.spawnListener "VisualWatcher",
        Effect.indexVisuals s wsId], true)

/-- Effects of the quickstart `capture_session.active` path, in program
order: system audio first, then mic, then display; a queue-wait timeout
raises out of the remaining blocks into the surrounding `except`, which
logs and falls through (already-issued effects are not rolled back). -/
def quickstartActiveEffects (env : ActiveEnv) : List Effect :=
  let sys := audioBlock "SystemAudioWatcher" env.systemAudios env
  if sys.2 then
    let mic := audioBlock "MicWatcher" env.mics env
    if mic.2 then
      let vis := visualBlock env.displays env
      sys.1 ++ mic.1 ++ vis.1
    else
      sys.1 ++ mic.1
  else
    sys.1

/-! ## Request bodies and JSON values -/

/-- A JSON value, for modelling webhook payloads.  Objects are association
lists; `lookup` on them models Python `dict.get`. -/
inductive JVal where
  | jnull
  | jbool (b : Bool)
  | jnum (n : Int)
  | jstr (s : String)
  | jarr (elems : List JVal)
  | jobj (fields : List (String × JVal))

/-- `dict.get(key)` on a JSON object's field list: the first binding of
`key`, or `none` when absent. -/
def jGet (fields : List (String × JVal)) (key : String) : Option JVal :=
  (fields.find? (fun p => p.1 = key)).map (fun p => p.2)

/-- A webhook request body as it reaches the framework: either bytes that
do not parse as JSON (malformed syntax, or an empty body), or a parsed
JSON value. -/
inductive ReqBody where
  | unparseable
  | parsed (v : JVal)

/-- Extracts the string value of a payload key, as the handlers use it:
`some s` when the key is bound to a JSON string, `none` when the key is
absent or bound to `null`.  (The claims under verification only exercise
string-or-absent payload fields; a non-string binding — which Python would
pass through untyped — is modelled as absent.) -/
def jGetStr (fields : List (String × JVal)) (key : String) : Option String :=
  match jGet fields key with
  | some (JVal.jstr s) => some s
  | _ => none

/-- Python truthiness of an optional string (`if video_id:`,
`if user.api_key`): `None` and `""` are falsy. -/
def optTruthy : Option String → Bool
  | none => false
  | some s => s ≠ ""

/-! ## The quickstart webhook handler: full dispatch

The Flask handler body begins with `data = request.json`.  Flask's
`request.json` raises when the body cannot be parsed as JSON (an HTTP
error response — `400 Bad Request` from `on_json_loading_failed`; the
handler body never runs), so the `unparseable` branch below produces an
error response.  A payload that parses to a non-object makes
`data.get("event")` raise `AttributeError`, which Flask surfaces as a
`500` — also an error response. -/

/-- The HTTP response of one Flask webhook delivery. -/
inductive FlaskResp where
  | jsonReceived            -- `jsonify({"received": True})`
  | badRequest              -- `request.json` parse failure → HTTP 400
  | internalError           -- unhandled exception in the handler → HTTP 500
deriving Repr, DecidableEq

/-- Result of one quickstart webhook delivery: the HTTP response and the
remote side effects issued. -/
structure QuickstartResult where
  response : FlaskResp
  effects : List Effect
deriving Repr, DecidableEq

/-- The recognized lifecycle events of the quickstart webhook's
membership test. -/
def recognizedEvents : List String :=
  ["capture_session.active", "capture_session.stopping",
   "capture_session.stopped", "capture_session.exported"]

/-- The quickstart backend's `webhook()` handler
(`src/apps/quickstart/python-quickstart/backend.py`): parse the body, read
`data.get("event")`; missing event → acknowledge with no side effect;
unrecognized event → acknowledge; `capture_session.active` → run the
pipeline-setup path (its own `try/except` swallows failures, so the
response is still the acknowledgment); the `stopping` / `stopped` /
`exported` events only print. -/
def quickstartWebhook (body : ReqBody) (env : ActiveEnv) : QuickstartResult :=
  match body with
  | ReqBody.unparseable => ⟨FlaskResp.badRequest, []⟩
  | ReqBody.parsed (JVal.jobj fields) =>
    match jGet fields "event" with
    | none => ⟨FlaskResp.jsonReceived, []⟩
    | some JVal.jnull => ⟨FlaskResp.jsonReceived, []⟩
    | some (JVal.jstr e) =>
      if e = "capture_session.active" then
        ⟨FlaskResp.jsonReceived, quickstartActiveEffects env⟩
      else ⟨FlaskResp.jsonReceived, []⟩
    | some _ => ⟨FlaskResp.jsonReceived, []⟩
  | ReqBody.parsed _ => ⟨FlaskResp.internalError, []⟩

/-! ## The async-recorder backend: data model

`src/examples/async-recorder/server/app/db/models.py`.  SQLAlchemy columns
without a value are `NULL`, hence `Option` fields; `created_at` is an
abstract timestamp. -/

/-- A row of the `users` table. -/
structure User where
  id : Nat
  name : Option String
  api_key : Option String
  access_token : Option String
deriving Repr, DecidableEq

/-- A row of the `recordings` table. -/
structure Recording where
  id : Nat
  video_id : Option String
  stream_url : Option String
  player_url : Option String
  session_id : Option String
  duration : Option Int
  created_at : Nat
  insights : Option String
  insights_status : Option String
deriving Repr, DecidableEq

/-- The local relational state the webhook handler reads and writes:
the two tables, plus the id and timestamp the next inserted recording row
receives. -/
structure Db where
  recordings : List Recording
  users : List User
  nextId : Nat
  now : Nat
deriving Repr, DecidableEq

/-- `db.query(Recording).filter(Recording.session_id == sid).first()`.
SQLAlchemy renders a comparison against Python `None` as `IS NULL`, so
`Option` equality matches the query's semantics. -/
def findBySessionId (recs : List Recording) (sid : Option String) :
    Option Recording :=
  recs.find? (fun r => r.session_id = sid)

/-- `db.query(Recording).filter(Recording.video_id == vid).first()`, for a
non-`None` `vid` (the handler only reaches this query under
`if video_id:`). -/
def findByVideoId (recs : List Recording) (vid : String) :
    Option Recording :=
  recs.find? (fun r => r.video_id = some vid)

/-- `db.query(User).order_by(User.id.desc()).first()`: the user with the
greatest id, `none` on an empty table. -/
def latestUser (users : List User) : Option User :=
  users.foldl
    (fun acc u =>
      match acc with
      | none => some u
      | some v => if v.id < u.id then some u else some v)
    none

/-- Applies `f` to the first element satisfying `p`, leaving the rest of
the list untouched: the effect of mutating the ORM object returned by
`.first()` and committing. -/
def updateFirst (p : α → Bool) (f : α → α) : List α → List α
  | [] => []
  | x :: xs => if p x then f x :: xs else x :: updateFirst p f xs

/-! ## The async-recorder webhook handler

`handle_webhook` in `src/examples/async-recorder/server/app/api/routes.py`.
The `capture_session.exported` payload fields the handler reads are
gathered in `ExportedEvent`; scheduled background indexing tasks are
reified as `(recording id, video id, api key)` triples. -/

/-- The fields of a `capture_session.exported` delivery the handler reads:
`body.get("capture_session_id")` and, from `body.get("data", {})`,
`exported_video_id` / `stream_url` / `player_url`. -/
structure ExportedEvent where
  capture_session_id : Option String
  exported_video_id : Option String
  stream_url : Option String
  player_url : Option String
deriving Repr, DecidableEq

/-- The HTTP response of one async-recorder webhook delivery. -/
inductive RecResp where
  | okReceived              -- `{"status": "ok", "received": True}`
  | httpError500            -- `HTTPException(status_code=500, ...)`
deriving Repr, DecidableEq

/-- Result of one async-recorder webhook delivery: the database
afterwards, the background tasks scheduled (recording id, video id, api
key), and the HTTP response. -/
structure RecorderResult where
  db : Db
  scheduled : List (Nat × String × String)
  response : RecResp
deriving Repr, DecidableEq

/-- The in-place update of an existing recording row on the exported path:
`recording.video_id = video_id; recording.stream_url = stream_url;
recording.player_url = player_url; recording.insights_status = "pending"`. -/
def applyExportUpdate (ev : ExportedEvent) (r : Recording) : Recording :=
  { r with
    video_id := ev.exported_video_id
    stream_url := ev.stream_url
    player_url := ev.player_url
    insights_status := some "pending" }

/-- The recordings table after the update path commits: the first row
matching the event's session id updated in place. -/
def exportUpdatedDb (db : Db) (ev : ExportedEvent) : Db :=
  { db with recordings := updateFirst (fun x => x.session_id = ev.capture_session_id) (applyExportUpdate ev) db.recordings }

/-- The fresh recording row the create path inserts. -/
def newRecording (db : Db) (ev : ExportedEvent) : Recording :=
  { id := db.nextId
    video_id := ev.exported_video_id
    stream_url := ev.stream_url
    player_url := ev.player_url
    session_id := ev.capture_session_id
    duration := none
    created_at := db.now
    insights := none
    insights_status := some "pending" }

/-- The database after the create path commits: the fresh row appended,
the next insert id advanced. -/
def exportCreatedDb (db : Db) (ev : ExportedEvent) : Db :=
  { db with recordings := db.recordings ++ [newRecording db ev], nextId := db.nextId + 1 }

/-- After the upsert, the handler schedules background indexing iff the
most recent user exists with a truthy api key and the row's video id is
truthy: `if user and user.api_key and recording.video_id:`. -/
def scheduleIndexing (db : Db) (r : Recording) :
    List (Nat × String × String) :=
  match latestUser db.users with
  | none => []
  | some u =>
    match u.api_key, r.video_id with
    | some key, some vid =>
      if key ≠ "" ∧ vid ≠ "" then [(r.id, vid, key)] else []
    | _, _ => []

/-- The `capture_session.exported` branch of `handle_webhook`.  Under a
truthy `video_id`: look the recording up by session id; if found, update
it in place; otherwise a duplicate by video id returns the acknowledgment
with no write; otherwise insert a fresh row; finally schedule background
indexing when a most-recent user with an api key exists.  A falsy
`video_id` only logs a warning. -/
def handleExported (db : Db) (ev : ExportedEvent) : RecorderResult :=
  match ev.exported_video_id with
  | none => ⟨db, [], RecResp.okReceived⟩
  | some vid =>
    if vid = "" then ⟨db, [], RecResp.okReceived⟩
    else
      match findBySessionId db.recordings ev.capture_session_id with
      | some r =>
        let r' := applyExportUpdate ev r
        let db' := exportUpdatedDb db ev
        ⟨db', scheduleIndexing db' r', RecResp.okReceived⟩
      | none =>
        match findByVideoId db.recordings vid with
        | some _ => ⟨db, [], RecResp.okReceived⟩
        | none =>
          let db' := exportCreatedDb db ev
          ⟨db', scheduleIndexing db' (newRecording db ev), RecResp.okReceived⟩

/-- The async-recorder `handle_webhook` route, over a raw request body.
The inner `try` around `await request.json()` turns an unparseable or
empty body into the plain acknowledgment.  A parsed non-object body makes
`body.get` raise; a non-string `event` value survives the equality test
but makes `event_type.startswith` raise; a non-object `data` value makes
`data.get` raise on the exported branch — each lands in the outer
`except`, which re-raises as an HTTP 500. -/
def asyncRecorderWebhook (body : ReqBody) (db : Db) : RecorderResult :=
  match body with
  | ReqBody.unparseable => ⟨db, [], RecResp.okReceived⟩
  | ReqBody.parsed (JVal.jobj fields) =>
    match jGet fields "event" with
    | none => ⟨db, [], RecResp.okReceived⟩
    | some (JVal.jstr e) =>
      if e = "capture_session.exported" then
        match jGet fields "data" with
        | none =>
          handleExported db
            ⟨jGetStr fields "capture_session_id", none, none, none⟩
        | some (JVal.jobj dataFields) =>
          handleExported db
            ⟨jGetStr fields "capture_session_id",
             jGetStr dataFields "exported_video_id",
             jGetStr dataFields "stream_url",
             jGetStr dataFields "player_url"⟩
        | some _ => ⟨db, [], RecResp.httpError500⟩
      else ⟨db, [], RecResp.okReceived⟩
    | some _ => ⟨db, [], RecResp.httpError500⟩
  | ReqBody.parsed _ => ⟨db, [], RecResp.httpError500⟩

/-! ## The capture client's cleanup sequence

The `finally` block of `run_capture` in
`src/apps/quickstart/python-quickstart/client.py`.  The only branching
input is the outcome of `asyncio.wait_for(client.stop_capture(), 5.0)`;
the shutdown call's own outcome changes only what is printed.  Actions on
the remote capture process are fully enumerated by the trace: the model
has no respawn action because the code's only path that could restart the
capture binary is the `client.shutdown()` call itself (which is why the
timed-out branch skips it). -/

/-- Outcome of the `stop_capture` step. -/
inductive StopOutcome where
  | completed               -- returned within the 5-second bound
  | timedOut                -- asyncio.TimeoutError
  | raisedError             -- any other exception
deriving Repr, DecidableEq

/-- One step of the cleanup trace. -/
inductive CleanupAction where
  | stopCaptureCall (timeoutSecs : Nat)
  | sleepSecs (n : Nat)
  | shutdownCall (timeoutSecs : Nat)
  | skipShutdown
  | setCleanupDone
deriving Repr, DecidableEq

/-- The cleanup trace of `run_capture`'s `finally` block, by stop
outcome: attempt `stop_capture` under a 5-second timeout; on success sleep
3 seconds ("waiting for server to finalize"), on timeout set
`binary_already_exited` and sleep 3 seconds ("extra time to detect
disconnect"), on any other error sleep 3 seconds; then, in the inner
`finally`, skip `shutdown` exactly when `binary_already_exited`, otherwise
call it under a 3-second timeout; finally set `cleanup_done`. -/
def runCaptureCleanup (stop : StopOutcome) : List CleanupAction :=
  [CleanupAction.stopCaptureCall 5, CleanupAction.sleepSecs 3] ++
    (match stop with
     | StopOutcome.timedOut => [CleanupAction.skipShutdown]
     | _ => [CleanupAction.shutdownCall 3]) ++
    [CleanupAction.setCleanupDone]

/-- Whether a cleanup action is a `shutdown` invocation — the one call on
the cleanup path that can respawn the remote capture process. -/
def invokesShutdown : CleanupAction → Bool
  | CleanupAction.shutdownCall _ => true
  | _ => false

/-! ## Helper lemmas on `updateFirst` and `find?` -/

theorem updateFirst_length (p : α → Bool) (f : α → α) (l : List α) :
    (updateFirst p f l).length = l.length := by
  induction l with
  | nil => rfl
  | cons x xs ih =>
    simp only [updateFirst]
    split <;> simp [ih]

theorem find?_decomp {p : α → Bool} {l : List α} {r : α}
    (h : l.find? p = some r) :
    ∃ l₁ l₂, l = l₁ ++ r :: l₂ ∧ (∀ x ∈ l₁, ¬ p x) ∧ p r := by
  induction l with
  | nil => simp at h
  | cons x xs ih =>
    by_cases hx : p x
    · refine ⟨[], xs, ?_, by simp, ?_⟩
      · simp only [List.find?_cons_of_pos _ hx, Option.some.injEq] at h
        simp [h]
      · simp only [List.find?_cons_of_pos _ hx, Option.some.injEq] at h
        rwa [← h]
    · rw [List.find?_cons_of_neg _ hx] at h
      obtain ⟨l₁, l₂, hl, hnone, hr⟩ := ih h
      exact ⟨x :: l₁, l₂, by simp [hl], by simpa [hx] using hnone, hr⟩

theorem updateFirst_of_decomp {p : α → Bool} (f : α → α) {l₁ : List α}
    (l₂ : List α) (r : α) (h₁ : ∀ x ∈ l₁, ¬ p x) (hr : p r) :
    updateFirst p f (l₁ ++ r :: l₂) = l₁ ++ f r :: l₂ := by
  induction l₁ with
  | nil => simp [updateFirst, hr]
  | cons x xs ih =>
    have hx : ¬ p x := h₁ x (by simp)
    have ih' := ih (fun y hy => h₁ y (by simp [hy]))
    simp [updateFirst, hx, ih']

/-! ## C1: transcript messages and `is_final` -/

/-- A transcript message with non-blank text whose `is_final` field is
`false`. -/
def nonFinalTranscriptMsg : WsMsg :=
  ⟨some "transcript", some "hello world", some false, none, none⟩

/-- C1, counterexample: the claim says every backend variant's listener
surfaces a transcript message's text only when `is_final` is true.  The
quickstart backend's listener (`start_ws_listener` in
`src/apps/quickstart/python-quickstart/backend.py`) never reads
`is_final`: a connected run that receives one transcript message with
`is_final: false` and non-blank text surfaces that text. -/
theorem claim_C1_counterexample :
    listenerSurfaced quickstartHandleMsg
        (WsOutcome.connected "conn-1" [nonFinalTranscriptMsg] false) =
      [Surfaced.transcript "hello world"] ∧
    nonFinalTranscriptMsg.isFinalD = false := by
  constructor <;> decide

/-- C1, amended: the openclaw-monitoring variant's listener surfaces a
transcript message's text only when `data.get("is_final", False)` holds,
but the quickstart variant's listener surfaces every transcript message
with non-blank text regardless of `is_final`. -/
theorem claim_C1 (m : WsMsg) (t : String) :
    (openclawHandleMsg m = some (Surfaced.transcript t) → m.isFinalD = true) ∧
    (m.channel = some "transcript" → stripTruthy m.textD →
      quickstartHandleMsg m = some (Surfaced.transcript m.textD)) := by
  constructor
  · intro h
    unfold openclawHandleMsg at h
    split_ifs at h <;> simp_all
  · intro hc ht
    unfold quickstartHandleMsg
    simp [hc, ht]

/-- Witness for C1: a final transcript message the openclaw listener
surfaces indeed has `is_final` true, and the quickstart listener surfaces
a concrete non-final transcript message. -/
theorem claim_C1_witness :
    WsMsg.isFinalD ⟨some "transcript", some "hi", some true, none, none⟩ = true ∧
    quickstartHandleMsg ⟨some "transcript", some "hey", some false, none, none⟩ =
      some (Surfaced.transcript "hey") :=
  ⟨(claim_C1 ⟨some "transcript", some "hi", some true, none, none⟩ "hi").1
      (by decide),
   (claim_C1 ⟨some "transcript", some "hey", some false, none, none⟩ "hi").2
      (by decide) (by decide)⟩

/-! ## Unfolding lemmas for the two exported-event paths -/

theorem handleExported_update (db : Db) (ev : ExportedEvent) (vid : String)
    (r : Recording) (hv : ev.exported_video_id = some vid) (hne : vid ≠ "")
    (hs : findBySessionId db.recordings ev.capture_session_id = some r) :
    handleExported db ev =
      ⟨exportUpdatedDb db ev,
       scheduleIndexing (exportUpdatedDb db ev) (applyExportUpdate ev r),
       RecResp.okReceived⟩ := by
  simp [handleExported, hv, hne, hs]

theorem handleExported_create (db : Db) (ev : ExportedEvent) (vid : String)
    (hv : ev.exported_video_id = some vid) (hne : vid ≠ "")
    (hs : findBySessionId db.recordings ev.capture_session_id = none)
    (hvid : findByVideoId db.recordings vid = none) :
    handleExported db ev =
      ⟨exportCreatedDb db ev,
       scheduleIndexing (exportCreatedDb db ev) (newRecording db ev),
       RecResp.okReceived⟩ := by
  simp [handleExported, hv, hne, hs, hvid]

/-! ## C2: exported-event idempotency by video id -/

/-- C2: a `capture_session.exported` event carrying a truthy `video_id`
for which no recording row exists (neither by session id nor by video id)
makes the async-recorder handler insert exactly one row bearing that video
id, and handling a redelivery of the same event afterwards inserts no
additional row. -/
theorem claim_C2 (db : Db) (ev : ExportedEvent) (vid : String)
    (hv : ev.exported_video_id = some vid) (hne : vid ≠ "")
    (hs : findBySessionId db.recordings ev.capture_session_id = none)
    (hvid : findByVideoId db.recordings vid = none) :
    (handleExported db ev).db.recordings.length = db.recordings.length + 1 ∧
    ((handleExported db ev).db.recordings.filter
        (fun r => r.video_id = some vid)).length = 1 ∧
    (handleExported (handleExported db ev).db ev).db.recordings.length =
      (handleExported db ev).db.recordings.length := by
  have hcreate := handleExported_create db ev vid hv hne hs hvid
  have hnil : db.recordings.filter (fun r => r.video_id = some vid) = [] := by
    rw [List.filter_eq_nil_iff]
    exact fun a ha => List.find?_eq_none.mp hvid a ha
  have hfind2 : findBySessionId (db.recordings ++ [newRecording db ev])
      ev.capture_session_id = some (newRecording db ev) := by
    unfold findBySessionId at hs ⊢
    rw [List.find?_append, hs]
    simp [newRecording]
  refine ⟨?_, ?_, ?_⟩
  · rw [hcreate]
    simp [exportCreatedDb]
  · rw [hcreate]
    show ((exportCreatedDb db ev).recordings.filter
        (fun r => r.video_id = some vid)).length = 1
    rw [exportCreatedDb]
    simp only [List.filter_append, hnil]
    simp [newRecording, hv]
  · rw [hcreate]
    have hupd := handleExported_update (exportCreatedDb db ev)
      ev vid (newRecording db ev) hv hne (by rw [exportCreatedDb]; exact hfind2)
    show ((handleExported (exportCreatedDb db ev) ev).db.recordings).length =
      (exportCreatedDb db ev).recordings.length
    rw [hupd]
    show ((exportUpdatedDb (exportCreatedDb db ev) ev).recordings).length =
      (exportCreatedDb db ev).recordings.length
    rw [exportUpdatedDb]
    exact updateFirst_length _ _ _

/-- A sample empty database for witnesses. -/
def sampleDb : Db := ⟨[], [], 1, 100⟩

/-- A sample exported event for witnesses. -/
def sampleExportedEvent : ExportedEvent :=
  ⟨some "cap-1", some "vid-1", some "https://s.example/video.m3u8",
   some "https://p.example/player"⟩

/-- Witness for C2 at a concrete empty database and event: one row after
the first delivery, exactly one row bearing the video id, and no further
row after the redelivery. -/
theorem claim_C2_witness :
    (handleExported sampleDb sampleExportedEvent).db.recordings.length =
      sampleDb.recordings.length + 1 ∧
    ((handleExported sampleDb sampleExportedEvent).db.recordings.filter
        (fun r => r.video_id = some "vid-1")).length = 1 ∧
    (handleExported (handleExported sampleDb sampleExportedEvent).db
        sampleExportedEvent).db.recordings.length =
      (handleExported sampleDb sampleExportedEvent).db.recordings.length :=
  claim_C2 sampleDb sampleExportedEvent "vid-1" rfl (by decide) rfl rfl

/-! ## C3 and C10: the exported-event update path -/

theorem exported_update_decomp (db : Db) (ev : ExportedEvent) (vid : String)
    (r : Recording) (hv : ev.exported_video_id = some vid) (hne : vid ≠ "")
    (hs : findBySessionId db.recordings ev.capture_session_id = some r) :
    ∃ pre post, db.recordings = pre ++ r :: post ∧
      (handleExported db ev).db.recordings =
        pre ++ applyExportUpdate ev r :: post ∧
      findBySessionId (handleExported db ev).db.recordings
        ev.capture_session_id = some (applyExportUpdate ev r) := by
  have hupd := handleExported_update db ev vid r hv hne hs
  have hs' : db.recordings.find?
      (fun x => x.session_id = ev.capture_session_id) = some r := hs
  obtain ⟨pre, post, hdec, hnomatch, hp⟩ := find?_decomp hs'
  have hres : (handleExported db ev).db.recordings =
      pre ++ applyExportUpdate ev r :: post := by
    rw [hupd]
    show (exportUpdatedDb db ev).recordings = pre ++ applyExportUpdate ev r :: post
    rw [exportUpdatedDb]
    show updateFirst (fun x => x.session_id = ev.capture_session_id)
        (applyExportUpdate ev) db.recordings = pre ++ applyExportUpdate ev r :: post
    rw [hdec]
    exact updateFirst_of_decomp _ _ _ hnomatch hp
  refine ⟨pre, post, hdec, hres, ?_⟩
  rw [hres]
  unfold findBySessionId
  rw [List.find?_append, List.find?_eq_none.mpr hnomatch]
  rw [Option.none_or]
  exact List.find?_cons_of_pos _ (by simpa [applyExportUpdate] using hp)

/-- C3: a `capture_session.exported` event whose session id matches an
existing recording row makes the handler update that row in place — same
row id and session id, the event's video id and stream/player URLs written
into it — and create no second row: the table keeps its length and differs
only at the matched row's position. -/
theorem claim_C3 (db : Db) (ev : ExportedEvent) (vid : String) (r : Recording)
    (hv : ev.exported_video_id = some vid) (hne : vid ≠ "")
    (hs : findBySessionId db.recordings ev.capture_session_id = some r) :
    (handleExported db ev).db.recordings.length = db.recordings.length ∧
    ∃ pre post, db.recordings = pre ++ r :: post ∧
      (handleExported db ev).db.recordings =
        pre ++ applyExportUpdate ev r :: post ∧
      (applyExportUpdate ev r).id = r.id ∧
      (applyExportUpdate ev r).session_id = r.session_id ∧
      (applyExportUpdate ev r).video_id = some vid ∧
      (applyExportUpdate ev r).stream_url = ev.stream_url ∧
      (applyExportUpdate ev r).player_url = ev.player_url := by
  obtain ⟨pre, post, hdec, hres, hfind⟩ := exported_update_decomp db ev vid r hv hne hs
  constructor
  · rw [hres, hdec]
    simp
  · refine ⟨pre, post, hdec, hres, rfl, rfl, ?_, rfl, rfl⟩
    show ev.exported_video_id = some vid
    exact hv

/-- A sample pre-existing recording row whose insights were already
computed, for the update-path witnesses. -/
def sampleReadyRecording : Recording :=
  ⟨7, some "vid-0", some "https://old/s", some "https://old/p",
   some "cap-1", some 90, 50, some "{}", some "ready"⟩

/-- A sample database holding `sampleReadyRecording` and one user. -/
def sampleDbWithRow : Db :=
  ⟨[sampleReadyRecording], [⟨1, some "alice", some "sk-key", some "tok"⟩], 8, 100⟩

/-- Witness for C3 at a concrete one-row database: the matched row is
updated in place and the table keeps one row. -/
theorem claim_C3_witness :
    (handleExported sampleDbWithRow sampleExportedEvent).db.recordings.length =
      sampleDbWithRow.recordings.length ∧
    ∃ pre post, sampleDbWithRow.recordings = pre ++ sampleReadyRecording :: post ∧
      (handleExported sampleDbWithRow sampleExportedEvent).db.recordings =
        pre ++ applyExportUpdate sampleExportedEvent sampleReadyRecording :: post ∧
      (applyExportUpdate sampleExportedEvent sampleReadyRecording).id =
        sampleReadyRecording.id ∧
      (applyExportUpdate sampleExportedEvent sampleReadyRecording).session_id =
        sampleReadyRecording.session_id ∧
      (applyExportUpdate sampleExportedEvent sampleReadyRecording).video_id =
        some "vid-1" ∧
      (applyExportUpdate sampleExportedEvent sampleReadyRecording).stream_url =
        sampleExportedEvent.stream_url ∧
      (applyExportUpdate sampleExportedEvent sampleReadyRecording).player_url =
        sampleExportedEvent.player_url :=
  claim_C3 sampleDbWithRow sampleExportedEvent "vid-1" sampleReadyRecording
    rfl (by decide) (by decide)

/-- C10: on the exported-event update path the handler writes exactly the
fields `video_id`, `stream_url`, `player_url` and `insights_status` — the
latter reset to `"pending"` whatever its prior value — and leaves `id`,
`session_id`, `created_at`, `duration` and `insights` unchanged, with the
rest of the table untouched. -/
theorem claim_C10 (db : Db) (ev : ExportedEvent) (vid : String) (r : Recording)
    (hv : ev.exported_video_id = some vid) (hne : vid ≠ "")
    (hs : findBySessionId db.recordings ev.capture_session_id = some r) :
    ∃ pre post, db.recordings = pre ++ r :: post ∧
      (handleExported db ev).db.recordings =
        pre ++ applyExportUpdate ev r :: post ∧
      (applyExportUpdate ev r).video_id = ev.exported_video_id ∧
      (applyExportUpdate ev r).stream_url = ev.stream_url ∧
      (applyExportUpdate ev r).player_url = ev.player_url ∧
      (applyExportUpdate ev r).insights_status = some "pending" ∧
      (applyExportUpdate ev r).id = r.id ∧
      (applyExportUpdate ev r).session_id = r.session_id ∧
      (applyExportUpdate ev r).created_at = r.created_at ∧
      (applyExportUpdate ev r).duration = r.duration ∧
      (applyExportUpdate ev r).insights = r.insights := by
  obtain ⟨pre, post, hdec, hres, hfind⟩ := exported_update_decomp db ev vid r hv hne hs
  exact ⟨pre, post, hdec, hres, rfl, rfl, rfl, rfl, rfl, rfl, rfl, rfl, rfl⟩

/-- Witness for C10 at a concrete database whose matched row had
`insights_status = "ready"`: the update resets it to `"pending"` and
leaves the frame fields unchanged. -/
theorem claim_C10_witness :
    ∃ pre post, sampleDbWithRow.recordings =
        pre ++ sampleReadyRecording :: post ∧
      (handleExported sampleDbWithRow sampleExportedEvent).db.recordings =
        pre ++ applyExportUpdate sampleExportedEvent sampleReadyRecording :: post ∧
      (applyExportUpdate sampleExportedEvent sampleReadyRecording).video_id =
        sampleExportedEvent.exported_video_id ∧
      (applyExportUpdate sampleExportedEvent sampleReadyRecording).stream_url =
        sampleExportedEvent.stream_url ∧
      (applyExportUpdate sampleExportedEvent sampleReadyRecording).player_url =
        sampleExportedEvent.player_url ∧
      (applyExportUpdate sampleExportedEvent sampleReadyRecording).insights_status =
        some "pending" ∧
      (applyExportUpdate sampleExportedEvent sampleReadyRecording).id =
        sampleReadyRecording.id ∧
      (applyExportUpdate sampleExportedEvent sampleReadyRecording).session_id =
        sampleReadyRecording.session_id ∧
      (applyExportUpdate sampleExportedEvent sampleReadyRecording).created_at =
        sampleReadyRecording.created_at ∧
      (applyExportUpdate sampleExportedEvent sampleReadyRecording).duration =
        sampleReadyRecording.duration ∧
      (applyExportUpdate sampleExportedEvent sampleReadyRecording).insights =
        sampleReadyRecording.insights :=
  claim_C10 sampleDbWithRow sampleExportedEvent "vid-1" sampleReadyRecording
    rfl (by decide) (by decide)

/-! ## C9: missing default user disables background indexing -/

theorem scheduleIndexing_nil (db : Db) (r : Recording)
    (hu : ∀ u, latestUser db.users = some u →
      u.api_key = none ∨ u.api_key = some "") :
    scheduleIndexing db r = [] := by
  unfold scheduleIndexing
  cases h : latestUser db.users with
  | none => rfl
  | some u =>
    rcases hu u h with h' | h' <;> cases hr : r.video_id <;> simp [h', hr]

/-- C9: a `capture_session.exported` event with a truthy video id, handled
when the user table is empty or the most-recently-created user has no
stored API key, still creates or updates the recording row (looked up by
the event's session id afterwards, its `insights_status` equal to
`"pending"`) and still returns the acknowledgment, but schedules no
background indexing task. -/
theorem claim_C9 (db : Db) (ev : ExportedEvent) (vid : String)
    (hv : ev.exported_video_id = some vid) (hne : vid ≠ "")
    (hu : ∀ u, latestUser db.users = some u →
      u.api_key = none ∨ u.api_key = some "")
    (hpath : (∃ r, findBySessionId db.recordings ev.capture_session_id = some r) ∨
      (findBySessionId db.recordings ev.capture_session_id = none ∧
        findByVideoId db.recordings vid = none)) :
    (handleExported db ev).scheduled = [] ∧
    (handleExported db ev).response = RecResp.okReceived ∧
    ∃ r2, findBySessionId (handleExported db ev).db.recordings
        ev.capture_session_id = some r2 ∧
      r2.insights_status = some "pending" := by
  rcases hpath with ⟨r, hs⟩ | ⟨hs, hvid⟩
  · obtain ⟨pre, post, hdec, hres, hfind⟩ :=
      exported_update_decomp db ev vid r hv hne hs
    have hupd := handleExported_update db ev vid r hv hne hs
    refine ⟨?_, ?_, applyExportUpdate ev r, hfind, rfl⟩
    · rw [hupd]
      show scheduleIndexing (exportUpdatedDb db ev) (applyExportUpdate ev r) = []
      exact scheduleIndexing_nil _ _ hu
    · rw [hupd]
  · have hcreate := handleExported_create db ev vid hv hne hs hvid
    refine ⟨?_, ?_, newRecording db ev, ?_, rfl⟩
    · rw [hcreate]
      show scheduleIndexing (exportCreatedDb db ev) (newRecording db ev) = []
      exact scheduleIndexing_nil _ _ hu
    · rw [hcreate]
    · rw [hcreate]
      show findBySessionId (exportCreatedDb db ev).recordings
          ev.capture_session_id = some (newRecording db ev)
      rw [exportCreatedDb]
      show findBySessionId (db.recordings ++ [newRecording db ev])
          ev.capture_session_id = some (newRecording db ev)
      unfold findBySessionId at hs ⊢
      rw [List.find?_append, hs]
      simp [newRecording]

/-- A sample most-recent user registered without an API key. -/
def sampleNoKeyUser : User := ⟨1, some "bob", none, some "tok-2"⟩

/-- A sample database whose only user has no stored API key. -/
def sampleDbNoKey : Db := ⟨[], [sampleNoKeyUser], 1, 100⟩

/-- Witness for C9 at a concrete database whose only (hence most recent)
user has no stored API key: the row is created with `insights_status`
`"pending"`, the acknowledgment is returned, nothing is scheduled. -/
theorem claim_C9_witness :
    (handleExported sampleDbNoKey sampleExportedEvent).scheduled = [] ∧
    (handleExported sampleDbNoKey sampleExportedEvent).response =
      RecResp.okReceived ∧
    ∃ r2, findBySessionId
        (handleExported sampleDbNoKey sampleExportedEvent).db.recordings
        sampleExportedEvent.capture_session_id = some r2 ∧
      r2.insights_status = some "pending" :=
  claim_C9 sampleDbNoKey sampleExportedEvent "vid-1" rfl (by decide)
    (by
      intro u h
      rw [show latestUser sampleDbNoKey.users = some sampleNoKeyUser from rfl] at h
      cases h
      exact Or.inl rfl)
    (Or.inr ⟨rfl, rfl⟩)

/-! ## C4: one screen stream, no audio streams -/

/-- Recognizer for listener-spawn effects. -/
def Effect.isSpawn : Effect → Bool
  | Effect.spawnListener _ => true
  | _ => false

/-- Recognizer for `start_transcript` effects. -/
def Effect.isStartTranscript : Effect → Bool
  | Effect.startTranscript _ _ => true
  | _ => false

/-- Recognizer for `index_audio` effects. -/
def Effect.isIndexAudio : Effect → Bool
  | Effect.indexAudio _ _ => true
  | _ => false

/-- Recognizer for `index_visuals` effects. -/
def Effect.isIndexVisuals : Effect → Bool
  | Effect.indexVisuals _ _ => true
  | _ => false

/-- C4: a `capture_session.active` webhook delivery for a session with
exactly one `screen` stream and zero `mic` and `system_audio` streams,
whose visual listener connects, spawns exactly one listener and issues
exactly one `index_visuals` call — on that screen stream with the queued
connection id — and issues no `start_transcript` and no `index_audio`
call. -/
theorem claim_C4 (fields : List (String × JVal)) (env : ActiveEnv)
    (d wsId : String)
    (hev : jGet fields "event" = some (JVal.jstr "capture_session.active"))
    (hm : env.mics = []) (hsa : env.systemAudios = [])
    (hd : env.displays = [d])
    (hc : env.connect "VisualWatcher" = some wsId) :
    (quickstartWebhook (ReqBody.parsed (JVal.jobj fields)) env).effects =
      [Effect.spawnListener "VisualWatcher", Effect.indexVisuals d wsId] ∧
    ((quickstartWebhook (ReqBody.parsed (JVal.jobj fields)) env).effects.countP
        Effect.isSpawn) = 1 ∧
    ((quickstartWebhook (ReqBody.parsed (JVal.jobj fields)) env).effects.countP
        Effect.isIndexVisuals) = 1 ∧
    ((quickstartWebhook (ReqBody.parsed (JVal.jobj fields)) env).effects.countP
        Effect.isStartTranscript) = 0 ∧
    ((quickstartWebhook (ReqBody.parsed (JVal.jobj fields)) env).effects.countP
        Effect.isIndexAudio) = 0 := by
  have heff : (quickstartWebhook (ReqBody.parsed (JVal.jobj fields)) env).effects =
      [Effect.spawnListener "VisualWatcher", Effect.indexVisuals d wsId] := by
    simp [quickstartWebhook, hev, quickstartActiveEffects, audioBlock,
      visualBlock, hm, hsa, hd, hc]
  refine ⟨heff, ?_, ?_, ?_, ?_⟩ <;> rw [heff] <;>
    simp [List.countP_cons, Effect.isSpawn, Effect.isIndexVisuals,
      Effect.isStartTranscript, Effect.isIndexAudio]

/-- A sample environment for witnesses: one screen stream, no audio
streams, and only the visual listener connecting. -/
def sampleScreenOnlyEnv : ActiveEnv :=
  ⟨[], ["screen-1"], [], fun n => if n = "VisualWatcher" then some "conn-9" else none⟩

/-- Witness for C4 at a concrete payload and screen-only environment. -/
theorem claim_C4_witness :
    (quickstartWebhook (ReqBody.parsed (JVal.jobj
        [("event", JVal.jstr "capture_session.active"),
         ("capture_session_id", JVal.jstr "cap-1")])) sampleScreenOnlyEnv).effects =
      [Effect.spawnListener "VisualWatcher",
       Effect.indexVisuals "screen-1" "conn-9"] ∧
    ((quickstartWebhook (ReqBody.parsed (JVal.jobj
        [("event", JVal.jstr "capture_session.active"),
         ("capture_session_id", JVal.jstr "cap-1")])) sampleScreenOnlyEnv).effects.countP
        Effect.isSpawn) = 1 ∧
    ((quickstartWebhook (ReqBody.parsed (JVal.jobj
        [("event", JVal.jstr "capture_session.active"),
         ("capture_session_id", JVal.jstr "cap-1")])) sampleScreenOnlyEnv).effects.countP
        Effect.isIndexVisuals) = 1 ∧
    ((quickstartWebhook (ReqBody.parsed (JVal.jobj
        [("event", JVal.jstr "capture_session.active"),
         ("capture_session_id", JVal.jstr "cap-1")])) sampleScreenOnlyEnv).effects.countP
        Effect.isStartTranscript) = 0 ∧
    ((quickstartWebhook (ReqBody.parsed (JVal.jobj
        [("event", JVal.jstr "capture_session.active"),
         ("capture_session_id", JVal.jstr "cap-1")])) sampleScreenOnlyEnv).effects.countP
        Effect.isIndexAudio) = 0 :=
  claim_C4 [("event", JVal.jstr "capture_session.active"),
            ("capture_session_id", JVal.jstr "cap-1")]
    sampleScreenOnlyEnv "screen-1" "conn-9" rfl rfl rfl rfl rfl

/-! ## C5: handoff-queue discipline -/

theorem audioBlock_ws_from_queue (w : String) (streams : List String)
    (env : ActiveEnv) (e : Effect) (sid wid : String)
    (he : e ∈ (audioBlock w streams env).1)
    (hind : e = Effect.startTranscript sid wid ∨ e = Effect.indexAudio sid wid ∨
      e = Effect.indexVisuals sid wid) :
    ∃ w2, env.connect w2 = some wid := by
  cases streams with
  | nil => simp [audioBlock] at he
  | cons s rest =>
    cases hc : env.connect w with
    | none =>
      simp [audioBlock, hc] at he
      rcases hind with h | h | h <;> rw [h] at he <;> simp at he
    | some id =>
      simp [audioBlock, hc] at he
      rcases hind with rfl | rfl | rfl <;> simp at he
      · exact ⟨w, by rw [hc, he.2]⟩
      · exact ⟨w, by rw [hc, he.2]⟩

theorem visualBlock_ws_from_queue (streams : List String)
    (env : ActiveEnv) (e : Effect) (sid wid : String)
    (he : e ∈ (visualBlock streams env).1)
    (hind : e = Effect.startTranscript sid wid ∨ e = Effect.indexAudio sid wid ∨
      e = Effect.indexVisuals sid wid) :
    ∃ w2, env.connect w2 = some wid := by
  cases streams with
  | nil => simp [visualBlock] at he
  | cons s rest =>
    cases hc : env.connect "VisualWatcher" with
    | none =>
      simp [visualBlock, hc] at he
      rcases hind with h | h | h <;> rw [h] at he <;> simp at he
    | some id =>
      simp [visualBlock, hc] at he
      rcases hind with rfl | rfl | rfl <;> simp at he
      exact ⟨"VisualWatcher", by rw [hc, he.2]⟩

theorem activeEffects_ws_from_queue (env : ActiveEnv) (e : Effect)
    (sid wid : String) (he : e ∈ quickstartActiveEffects env)
    (hind : e = Effect.startTranscript sid wid ∨ e = Effect.indexAudio sid wid ∨
      e = Effect.indexVisuals sid wid) :
    ∃ w2, env.connect w2 = some wid := by
  simp only [quickstartActiveEffects] at he
  by_cases h1 : (audioBlock "SystemAudioWatcher" env.systemAudios env).2 = true
  · rw [if_pos h1] at he
    by_cases h2 : (audioBlock "MicWatcher" env.mics env).2 = true
    · rw [if_pos h2] at he
      rcases List.mem_append.mp he with he2 | hev
      · rcases List.mem_append.mp he2 with hes | hem
        · exact audioBlock_ws_from_queue _ _ _ _ _ _ hes hind
        · exact audioBlock_ws_from_queue _ _ _ _ _ _ hem hind
      · exact visualBlock_ws_from_queue _ _ _ _ _ hev hind
    · rw [if_neg h2] at he
      rcases List.mem_append.mp he with hes | hem
      · exact audioBlock_ws_from_queue _ _ _ _ _ _ hes hind
      · exact audioBlock_ws_from_queue _ _ _ _ _ _ hem hind
  · rw [if_neg h1] at he
    exact audioBlock_ws_from_queue _ _ _ _ _ _ he hind

/-- C5: a listener puts its connection id on the handoff queue at most
once — exactly once when the connection succeeds and never on connection
failure; the handler's queue wait is bounded by 10 seconds; when no
connection id arrives for a stream's listener the handler issues no
indexing call for that stream (shown for a session whose system-audio
listener never connects: the delivery's effects stop at that spawn, with
no indexing call at all); and every indexing call the handler does issue
uses a connection id obtained from a listener's handoff queue. -/
theorem claim_C5 (o : WsOutcome) (env : ActiveEnv) (s : String)
    (rest : List String) (hs : env.systemAudios = s :: rest)
    (hc : env.connect "SystemAudioWatcher" = none) :
    (listenerQueuePuts o).length ≤ 1 ∧
    (∀ wsId msgs err, o = WsOutcome.connected wsId msgs err →
      listenerQueuePuts o = [wsId]) ∧
    listenerQueuePuts WsOutcome.connectFailed = [] ∧
    wsQueueTimeoutSeconds = 10 ∧
    quickstartActiveEffects env = [Effect.spawnListener "SystemAudioWatcher"] ∧
    (∀ env2 : ActiveEnv, ∀ e ∈ quickstartActiveEffects env2, ∀ sid wid,
      (e = Effect.startTranscript sid wid ∨ e = Effect.indexAudio sid wid ∨
        e = Effect.indexVisuals sid wid) →
      ∃ w2, env2.connect w2 = some wid) := by
  refine ⟨?_, ?_, rfl, rfl, ?_, ?_⟩
  · cases o <;> simp [listenerQueuePuts]
  · intro wsId msgs err h
    rw [h]
    rfl
  · simp [quickstartActiveEffects, audioBlock, hs, hc]
  · intro env2 e he sid wid hind
    exact activeEffects_ws_from_queue env2 e sid wid he hind

/-- A sample environment whose single system-audio listener never
connects. -/
def sampleNoConnectEnv : ActiveEnv :=
  ⟨[], [], ["sysaudio-1"], fun _ => none⟩

/-- Witness for C5 at a concrete outcome and environment: one successful
connection yields exactly one queue put, and a system-audio session whose
listener never connects gets no indexing call. -/
theorem claim_C5_witness :
    (listenerQueuePuts (WsOutcome.connected "conn-1" [] false)).length ≤ 1 ∧
    (∀ wsId msgs err, WsOutcome.connected "conn-1" [] false =
        WsOutcome.connected wsId msgs err →
      listenerQueuePuts (WsOutcome.connected "conn-1" [] false) = [wsId]) ∧
    listenerQueuePuts WsOutcome.connectFailed = [] ∧
    wsQueueTimeoutSeconds = 10 ∧
    quickstartActiveEffects sampleNoConnectEnv =
      [Effect.spawnListener "SystemAudioWatcher"] ∧
    (∀ env2 : ActiveEnv, ∀ e ∈ quickstartActiveEffects env2, ∀ sid wid,
      (e = Effect.startTranscript sid wid ∨ e = Effect.indexAudio sid wid ∨
        e = Effect.indexVisuals sid wid) →
      ∃ w2, env2.connect w2 = some wid) :=
  claim_C5 (WsOutcome.connected "conn-1" [] false) sampleNoConnectEnv
    "sysaudio-1" [] rfl rfl

/-! ## C6: the capture client cleanup sequence -/

/-- C6: when `stop_capture` times out under its 5-second bound, the
cleanup sequence sleeps the fixed 3-second grace period and then skips the
`shutdown` call entirely — no `shutdown` invocation (the one call that can
respawn the capture binary) appears anywhere in that trace — while on the
timeout-free paths `shutdown` is invoked under its own 3-second timeout. -/
theorem claim_C6 :
    runCaptureCleanup StopOutcome.timedOut =
      [CleanupAction.stopCaptureCall 5, CleanupAction.sleepSecs 3,
       CleanupAction.skipShutdown, CleanupAction.setCleanupDone] ∧
    (runCaptureCleanup StopOutcome.timedOut).all
      (fun a => !invokesShutdown a) = true ∧
    runCaptureCleanup StopOutcome.completed =
      [CleanupAction.stopCaptureCall 5, CleanupAction.sleepSecs 3,
       CleanupAction.shutdownCall 3, CleanupAction.setCleanupDone] ∧
    runCaptureCleanup StopOutcome.raisedError =
      [CleanupAction.stopCaptureCall 5, CleanupAction.sleepSecs 3,
       CleanupAction.shutdownCall 3, CleanupAction.setCleanupDone] :=
  ⟨rfl, rfl, rfl, rfl⟩

/-! ## C7: malformed or empty webhook bodies -/

/-- A concrete environment with no streams and no connecting listeners. -/
def emptyActiveEnv : ActiveEnv := ⟨[], [], [], fun _ => none⟩

/-- C7 counterexample: the claim says every backend variant acknowledges a
malformed or empty body with success and never an error, but the Flask
quickstart handler's first statement `data = request.json` raises on an
unparseable body, so the delivery receives an HTTP 400 error response
rather than the `{received: true}` acknowledgment. -/
theorem claim_C7_counterexample :
    (quickstartWebhook ReqBody.unparseable emptyActiveEnv).response =
      FlaskResp.badRequest ∧
    (quickstartWebhook ReqBody.unparseable emptyActiveEnv).effects = [] :=
  ⟨rfl, rfl⟩

/-- C7 (amended): the async-recorder (FastAPI) webhook handler treats an
unparseable or empty body as a no-op success acknowledgment, while the
Flask quickstart variant (the openclaw variant's handler opens with the
same two lines) answers such a body with an HTTP 400 error response;
neither issues any effect. -/
theorem claim_C7 (db : Db) (env : ActiveEnv) :
    asyncRecorderWebhook ReqBody.unparseable db =
      ⟨db, [], RecResp.okReceived⟩ ∧
    (quickstartWebhook ReqBody.unparseable env).response =
      FlaskResp.badRequest ∧
    (quickstartWebhook ReqBody.unparseable env).effects = [] :=
  ⟨rfl, rfl, rfl⟩

/-! ## C8: payloads without an event key -/

/-- C8: a webhook payload that parses to an object with no `event` key
makes the quickstart handler respond `{received: true}` and perform no
side effect — no listener spawned, no remote platform call issued. -/
theorem claim_C8 (fields : List (String × JVal)) (env : ActiveEnv)
    (h : jGet fields "event" = none) :
    quickstartWebhook (ReqBody.parsed (JVal.jobj fields)) env =
      ⟨FlaskResp.jsonReceived, []⟩ := by
  simp [quickstartWebhook, h]

/-- Witness for C8 at a concrete event-free payload. -/
theorem claim_C8_witness :
    quickstartWebhook (ReqBody.parsed (JVal.jobj
        [("capture_session_id", JVal.jstr "cap-1")])) emptyActiveEnv =
      ⟨FlaskResp.jsonReceived, []⟩ :=
  claim_C8 [("capture_session_id", JVal.jstr "cap-1")] emptyActiveEnv rfl

end CaptureQuickstart
